import Mathlib

/-!
Shallow embedding of `arch/arm/soc/st_stm32/stm32f4/soc_gpio.c` (STM32F4 GPIO
driver core): function-to-field classifiers, flags translator, register
programmer, atomic pin set/get, and the external-interrupt source router.

Machine integers are modelled as `Nat`; every store into a 32-bit hardware
register is truncated with `&&& UINT32_MASK`, mirroring `u32_t` assignment.
Register-block state is passed explicitly, and each register store is also
recorded in a write trace so that ordering and write-count properties can be
stated.
-/

namespace SocGpio

/-- errno value used by the driver (`-EINVAL` is returned on bad arguments). -/
def EINVAL : Int := 22

/-- All 32-bit stores are truncated by this mask (models `u32_t` assignment). -/
def UINT32_MASK : Nat := 0xFFFFFFFF

/-- Modelled from the spec: the closed Pin Function enumeration
(`STM32F4X_PIN_CONFIG_*`).  The header defining these enumerators is not part
of this unit's source; per §3 it is a closed enumeration of bias, drive,
alternate-function and analog variants.  Following the C enum convention the
codes are consecutive integers starting at 0. -/
inductive PinConfig where
  | bias_high_impedance
  | bias_pull_up
  | bias_pull_down
  | drive_push_pull
  | drive_push_up
  | drive_push_down
  | drive_open_drain
  | drive_open_up
  | drive_open_down
  | af_push_pull
  | af_push_up
  | af_push_down
  | af_open_drain
  | af_open_up
  | af_open_down
  | analog
  deriving DecidableEq

def STM32F4X_PIN_CONFIG_BIAS_HIGH_IMPEDANCE : Int := 0
def STM32F4X_PIN_CONFIG_BIAS_PULL_UP : Int := 1
def STM32F4X_PIN_CONFIG_BIAS_PULL_DOWN : Int := 2
def STM32F4X_PIN_CONFIG_DRIVE_PUSH_PULL : Int := 3
def STM32F4X_PIN_CONFIG_DRIVE_PUSH_UP : Int := 4
def STM32F4X_PIN_CONFIG_DRIVE_PUSH_DOWN : Int := 5
def STM32F4X_PIN_CONFIG_DRIVE_OPEN_DRAIN : Int := 6
def STM32F4X_PIN_CONFIG_DRIVE_OPEN_UP : Int := 7
def STM32F4X_PIN_CONFIG_DRIVE_OPEN_DOWN : Int := 8
def STM32F4X_PIN_CONFIG_AF_PUSH_PULL : Int := 9
def STM32F4X_PIN_CONFIG_AF_PUSH_UP : Int := 10
def STM32F4X_PIN_CONFIG_AF_PUSH_DOWN : Int := 11
def STM32F4X_PIN_CONFIG_AF_OPEN_DRAIN : Int := 12
def STM32F4X_PIN_CONFIG_AF_OPEN_UP : Int := 13
def STM32F4X_PIN_CONFIG_AF_OPEN_DOWN : Int := 14
def STM32F4X_PIN_CONFIG_ANALOG : Int := 15

/-- The integer code of each Pin Function enumerator. -/
def PinConfig.code : PinConfig → Int
  | .bias_high_impedance => STM32F4X_PIN_CONFIG_BIAS_HIGH_IMPEDANCE
  | .bias_pull_up => STM32F4X_PIN_CONFIG_BIAS_PULL_UP
  | .bias_pull_down => STM32F4X_PIN_CONFIG_BIAS_PULL_DOWN
  | .drive_push_pull => STM32F4X_PIN_CONFIG_DRIVE_PUSH_PULL
  | .drive_push_up => STM32F4X_PIN_CONFIG_DRIVE_PUSH_UP
  | .drive_push_down => STM32F4X_PIN_CONFIG_DRIVE_PUSH_DOWN
  | .drive_open_drain => STM32F4X_PIN_CONFIG_DRIVE_OPEN_DRAIN
  | .drive_open_up => STM32F4X_PIN_CONFIG_DRIVE_OPEN_UP
  | .drive_open_down => STM32F4X_PIN_CONFIG_DRIVE_OPEN_DOWN
  | .af_push_pull => STM32F4X_PIN_CONFIG_AF_PUSH_PULL
  | .af_push_up => STM32F4X_PIN_CONFIG_AF_PUSH_UP
  | .af_push_down => STM32F4X_PIN_CONFIG_AF_PUSH_DOWN
  | .af_open_drain => STM32F4X_PIN_CONFIG_AF_OPEN_DRAIN
  | .af_open_up => STM32F4X_PIN_CONFIG_AF_OPEN_UP
  | .af_open_down => STM32F4X_PIN_CONFIG_AF_OPEN_DOWN
  | .analog => STM32F4X_PIN_CONFIG_ANALOG

/-- `__func_to_mode` from soc_gpio.c: map pin function to MODE register value. -/
def __func_to_mode (func : Int) : Nat :=
  if func = STM32F4X_PIN_CONFIG_BIAS_HIGH_IMPEDANCE ∨
     func = STM32F4X_PIN_CONFIG_BIAS_PULL_UP ∨
     func = STM32F4X_PIN_CONFIG_BIAS_PULL_DOWN then 0x0
  else if func = STM32F4X_PIN_CONFIG_DRIVE_PUSH_PULL ∨
     func = STM32F4X_PIN_CONFIG_DRIVE_PUSH_UP ∨
     func = STM32F4X_PIN_CONFIG_DRIVE_PUSH_DOWN ∨
     func = STM32F4X_PIN_CONFIG_DRIVE_OPEN_DRAIN ∨
     func = STM32F4X_PIN_CONFIG_DRIVE_OPEN_UP ∨
     func = STM32F4X_PIN_CONFIG_DRIVE_OPEN_DOWN then 0x1
  else if func = STM32F4X_PIN_CONFIG_AF_PUSH_PULL ∨
     func = STM32F4X_PIN_CONFIG_AF_PUSH_UP ∨
     func = STM32F4X_PIN_CONFIG_AF_PUSH_DOWN ∨
     func = STM32F4X_PIN_CONFIG_AF_OPEN_DRAIN ∨
     func = STM32F4X_PIN_CONFIG_AF_OPEN_UP ∨
     func = STM32F4X_PIN_CONFIG_AF_OPEN_DOWN then 0x2
  else if func = STM32F4X_PIN_CONFIG_ANALOG then 0x3
  else 0

/-- `__func_to_otype` from soc_gpio.c: map pin function to OTYPE register value. -/
def __func_to_otype (func : Int) : Nat :=
  if func = STM32F4X_PIN_CONFIG_DRIVE_OPEN_DRAIN ∨
     func = STM32F4X_PIN_CONFIG_DRIVE_OPEN_UP ∨
     func = STM32F4X_PIN_CONFIG_DRIVE_OPEN_DOWN ∨
     func = STM32F4X_PIN_CONFIG_AF_OPEN_DRAIN ∨
     func = STM32F4X_PIN_CONFIG_AF_OPEN_UP ∨
     func = STM32F4X_PIN_CONFIG_AF_OPEN_DOWN then 0x1
  else 0

/-- `__func_to_ospeed` from soc_gpio.c: map pin function to OSPEED register value
(fast speed forced by default for all drive and alternate variants). -/
def __func_to_ospeed (func : Int) : Nat :=
  if func = STM32F4X_PIN_CONFIG_DRIVE_PUSH_PULL ∨
     func = STM32F4X_PIN_CONFIG_DRIVE_PUSH_UP ∨
     func = STM32F4X_PIN_CONFIG_DRIVE_PUSH_DOWN ∨
     func = STM32F4X_PIN_CONFIG_DRIVE_OPEN_DRAIN ∨
     func = STM32F4X_PIN_CONFIG_DRIVE_OPEN_UP ∨
     func = STM32F4X_PIN_CONFIG_DRIVE_OPEN_DOWN ∨
     func = STM32F4X_PIN_CONFIG_AF_PUSH_PULL ∨
     func = STM32F4X_PIN_CONFIG_AF_PUSH_UP ∨
     func = STM32F4X_PIN_CONFIG_AF_PUSH_DOWN ∨
     func = STM32F4X_PIN_CONFIG_AF_OPEN_DRAIN ∨
     func = STM32F4X_PIN_CONFIG_AF_OPEN_UP ∨
     func = STM32F4X_PIN_CONFIG_AF_OPEN_DOWN then 0x2
  else 0

/-- `__func_to_pupd` from soc_gpio.c: map pin function to PUPD register value. -/
def __func_to_pupd (func : Int) : Nat :=
  if func = STM32F4X_PIN_CONFIG_DRIVE_PUSH_PULL ∨
     func = STM32F4X_PIN_CONFIG_DRIVE_OPEN_DRAIN ∨
     func = STM32F4X_PIN_CONFIG_AF_PUSH_PULL ∨
     func = STM32F4X_PIN_CONFIG_AF_OPEN_DRAIN ∨
     func = STM32F4X_PIN_CONFIG_BIAS_HIGH_IMPEDANCE ∨
     func = STM32F4X_PIN_CONFIG_ANALOG then 0x0
  else if func = STM32F4X_PIN_CONFIG_DRIVE_PUSH_UP ∨
     func = STM32F4X_PIN_CONFIG_DRIVE_OPEN_UP ∨
     func = STM32F4X_PIN_CONFIG_AF_PUSH_UP ∨
     func = STM32F4X_PIN_CONFIG_AF_OPEN_UP ∨
     func = STM32F4X_PIN_CONFIG_BIAS_PULL_UP then 0x1
  else if func = STM32F4X_PIN_CONFIG_DRIVE_PUSH_DOWN ∨
     func = STM32F4X_PIN_CONFIG_DRIVE_OPEN_DOWN ∨
     func = STM32F4X_PIN_CONFIG_AF_PUSH_DOWN ∨
     func = STM32F4X_PIN_CONFIG_AF_OPEN_DOWN ∨
     func = STM32F4X_PIN_CONFIG_BIAS_PULL_DOWN then 0x2
  else 0

/-- Modelled from the spec: the generic direction/pull flag bit masks consumed
by the flags translator (`GPIO_DIR_*`, `GPIO_PUD_*` from the generic GPIO
header, which is not part of this unit's source).  §6 describes them as bit
masks: a 1-bit direction flag and a 2-bit pull field. -/
def GPIO_DIR_IN : Nat := 0
def GPIO_DIR_OUT : Nat := 1
def GPIO_DIR_MASK : Nat := 0x1
def GPIO_PUD_NORMAL : Nat := 0 <<< 4
def GPIO_PUD_PULL_UP : Nat := 1 <<< 4
def GPIO_PUD_PULL_DOWN : Nat := 2 <<< 4
def GPIO_PUD_MASK : Nat := 0x3 <<< 4

/-- `stm32_gpio_flags_to_conf` from soc_gpio.c.  The output pointer is modelled
by a flag `pincfg` saying whether the destination is non-null; the value the C
code stores through the pointer is returned as the `Option Int` component
(`none` when nothing is stored). -/
def stm32_gpio_flags_to_conf (flags : Nat) (pincfg : Bool) : Int × Option Int :=
  let direction := flags &&& GPIO_DIR_MASK
  let pud := flags &&& GPIO_PUD_MASK
  if !pincfg then (-EINVAL, none)
  else if direction = GPIO_DIR_OUT then
    if pud = GPIO_PUD_PULL_UP then (0, some STM32F4X_PIN_CONFIG_DRIVE_PUSH_UP)
    else if pud = GPIO_PUD_PULL_DOWN then (0, some STM32F4X_PIN_CONFIG_DRIVE_PUSH_DOWN)
    else (0, some STM32F4X_PIN_CONFIG_DRIVE_PUSH_PULL)
  else
    if pud = GPIO_PUD_PULL_UP then (0, some STM32F4X_PIN_CONFIG_BIAS_PULL_UP)
    else if pud = GPIO_PUD_PULL_DOWN then (0, some STM32F4X_PIN_CONFIG_BIAS_PULL_DOWN)
    else (0, some STM32F4X_PIN_CONFIG_BIAS_HIGH_IMPEDANCE)

/-- The `struct stm32f4x_gpio` register block (mode, output type, speed, pull,
two alternate-function words, atomic bit set/reset, input data). -/
structure Stm32f4xGpio where
  mode : Nat
  otype : Nat
  ospeed : Nat
  pupdr : Nat
  afr0 : Nat
  afr1 : Nat
  bsr : Nat
  idr : Nat
  deriving DecidableEq

/-- One store into a named GPIO register (used to record write traces). -/
inductive RegWrite where
  | afr (idx : Nat) (v : Nat)
  | mode (v : Nat)
  | otype (v : Nat)
  | ospeed (v : Nat)
  | pupdr (v : Nat)
  | bsr (v : Nat)
  deriving DecidableEq

/-- `stm32_gpio_configure` from soc_gpio.c.  Returns the C return value, the
register block after the call, and the ordered list of register stores the call
performed. -/
def stm32_gpio_configure (gpio : Stm32f4xGpio) (pin : Nat) (conf : Int) (altf : Nat) :
    Int × Stm32f4xGpio × List RegWrite :=
  let mode := __func_to_mode conf
  let otype := __func_to_otype conf
  let ospeed := __func_to_ospeed conf
  let pupd := __func_to_pupd conf
  let afrVal := (((if pin >>> 0x3 = 0 then gpio.afr0 else gpio.afr1) &&&
      (UINT32_MASK ^^^ (0xf <<< ((pin &&& 0x07) * 4)))) |||
      (altf <<< ((pin &&& 0x07) * 4))) &&& UINT32_MASK
  let gpio1 := if altf ≠ 0 then
      (if pin >>> 0x3 = 0 then { gpio with afr0 := afrVal } else { gpio with afr1 := afrVal })
    else gpio
  let trace1 : List RegWrite := if altf ≠ 0 then [.afr (pin >>> 0x3) afrVal] else []
  let modeVal := ((gpio1.mode &&& (UINT32_MASK ^^^ (0x3 <<< (pin * 2)))) |||
      (mode <<< (pin * 2))) &&& UINT32_MASK
  let gpio2 := { gpio1 with mode := modeVal }
  let otypeVal := ((gpio2.otype &&& (UINT32_MASK ^^^ (0x1 <<< pin))) |||
      (otype <<< pin)) &&& UINT32_MASK
  let gpio3 := if otype ≠ 0 then { gpio2 with otype := otypeVal } else gpio2
  let trace3 : List RegWrite := if otype ≠ 0 then [.otype otypeVal] else []
  let ospeedVal := ((gpio3.ospeed &&& (UINT32_MASK ^^^ (0x3 <<< (pin * 2)))) |||
      (ospeed <<< (pin * 2))) &&& UINT32_MASK
  let gpio4 := if ospeed ≠ 0 then { gpio3 with ospeed := ospeedVal } else gpio3
  let trace4 : List RegWrite := if ospeed ≠ 0 then [.ospeed ospeedVal] else []
  let pupdVal := ((gpio4.pupdr &&& (UINT32_MASK ^^^ (0x3 <<< (pin * 2)))) |||
      (pupd <<< (pin * 2))) &&& UINT32_MASK
  let gpio5 := { gpio4 with pupdr := pupdVal }
  (0, gpio5, trace1 ++ [.mode modeVal] ++ trace3 ++ trace4 ++ [.pupdr pupdVal])

/-- `stm32_gpio_set` from soc_gpio.c: a single store to the atomic set/reset
register. -/
def stm32_gpio_set (gpio : Stm32f4xGpio) (pin : Nat) (value : Nat) :
    Int × Stm32f4xGpio × List RegWrite :=
  if value ≠ 0 then
    let v := (1 <<< (pin &&& 0x0f)) &&& UINT32_MASK
    (0, { gpio with bsr := v }, [.bsr v])
  else
    let v := (1 <<< ((pin &&& 0x0f) + 0x10)) &&& UINT32_MASK
    (0, { gpio with bsr := v }, [.bsr v])

/-- `stm32_gpio_get` from soc_gpio.c: read the input-data register, return bit
`pin` masked to one bit. -/
def stm32_gpio_get (gpio : Stm32f4xGpio) (pin : Nat) : Int :=
  ((gpio.idr >>> pin) &&& 0x1 : Nat)

/-- The four SYSCFG external-interrupt selector registers. -/
structure Stm32f4xSyscfg where
  exticr1 : Nat
  exticr2 : Nat
  exticr3 : Nat
  exticr4 : Nat
  deriving DecidableEq

/-- State touched by `stm32_gpio_enable_int`: the SYSCFG selector registers
plus a counter of `clock_control_on` invocations (the external clock-control
collaborator is modelled by counting its calls). -/
structure EnableIntState where
  syscfg : Stm32f4xSyscfg
  clock_on_count : Nat
  deriving DecidableEq

/-- `stm32_gpio_enable_int` from soc_gpio.c.  Note the source enables the
SYSCFG clock before performing the pin range check. -/
def stm32_gpio_enable_int (s : EnableIntState) (port : Nat) (pin : Nat) :
    Int × EnableIntState :=
  let s1 : EnableIntState := { s with clock_on_count := s.clock_on_count + 1 }
  let shift := 4 * (pin % 4)
  if pin ≤ 3 then
    (0, { s1 with syscfg := { s1.syscfg with exticr1 :=
      ((s1.syscfg.exticr1 &&& (UINT32_MASK ^^^ (0xf <<< shift))) ||| (port <<< shift)) &&& UINT32_MASK } })
  else if pin ≤ 7 then
    (0, { s1 with syscfg := { s1.syscfg with exticr2 :=
      ((s1.syscfg.exticr2 &&& (UINT32_MASK ^^^ (0xf <<< shift))) ||| (port <<< shift)) &&& UINT32_MASK } })
  else if pin ≤ 11 then
    (0, { s1 with syscfg := { s1.syscfg with exticr3 :=
      ((s1.syscfg.exticr3 &&& (UINT32_MASK ^^^ (0xf <<< shift))) ||| (port <<< shift)) &&& UINT32_MASK } })
  else if pin ≤ 15 then
    (0, { s1 with syscfg := { s1.syscfg with exticr4 :=
      ((s1.syscfg.exticr4 &&& (UINT32_MASK ^^^ (0xf <<< shift))) ||| (port <<< shift)) &&& UINT32_MASK } })
  else
    (-EINVAL, s1)

/-- A 32-bit read-modify-write of a `width`-bit field at bit `pos`: clear the
field, OR in `v`, truncate to 32 bits.  This is the store pattern used
throughout the driver. -/
def rmw32 (x : Nat) (width pos : Nat) (v : Nat) : Nat :=
  ((x &&& (UINT32_MASK ^^^ ((2 ^ width - 1) <<< pos))) ||| (v <<< pos)) &&& UINT32_MASK

/-- Spec-side §4.1 table for mode-of. -/
def modeSpecTable : PinConfig → Nat
  | .bias_high_impedance | .bias_pull_up | .bias_pull_down => 0x0
  | .drive_push_pull | .drive_push_up | .drive_push_down
  | .drive_open_drain | .drive_open_up | .drive_open_down => 0x1
  | .af_push_pull | .af_push_up | .af_push_down
  | .af_open_drain | .af_open_up | .af_open_down => 0x2
  | .analog => 0x3

/-- Spec-side §4.1 table for otype-of. -/
def otypeSpecTable : PinConfig → Nat
  | .drive_open_drain | .drive_open_up | .drive_open_down
  | .af_open_drain | .af_open_up | .af_open_down => 0x1
  | _ => 0x0

/-- Spec-side §4.1 table for ospeed-of. -/
def ospeedSpecTable : PinConfig → Nat
  | .drive_push_pull | .drive_push_up | .drive_push_down
  | .drive_open_drain | .drive_open_up | .drive_open_down
  | .af_push_pull | .af_push_up | .af_push_down
  | .af_open_drain | .af_open_up | .af_open_down => 0x2
  | .bias_high_impedance | .bias_pull_up | .bias_pull_down | .analog => 0x0

/-- Spec-side §4.1 table for pupd-of. -/
def pupdSpecTable : PinConfig → Nat
  | .drive_push_pull | .drive_open_drain | .af_push_pull | .af_open_drain
  | .bias_high_impedance | .analog => 0x0
  | .drive_push_up | .drive_open_up | .af_push_up | .af_open_up
  | .bias_pull_up => 0x1
  | .drive_push_down | .drive_open_down | .af_push_down | .af_open_down
  | .bias_pull_down => 0x2

/-- Spec-side §4.2 table for the flags translator: output direction yields the
drive-push-pull variant with the requested pull, anything else yields the bias
variant; pull values other than the two recognized flags yield the no-pull row. -/
def flagsToConfSpec (flags : Nat) : Int :=
  if flags &&& GPIO_DIR_MASK = GPIO_DIR_OUT then
    if flags &&& GPIO_PUD_MASK = GPIO_PUD_PULL_UP then STM32F4X_PIN_CONFIG_DRIVE_PUSH_UP
    else if flags &&& GPIO_PUD_MASK = GPIO_PUD_PULL_DOWN then STM32F4X_PIN_CONFIG_DRIVE_PUSH_DOWN
    else STM32F4X_PIN_CONFIG_DRIVE_PUSH_PULL
  else
    if flags &&& GPIO_PUD_MASK = GPIO_PUD_PULL_UP then STM32F4X_PIN_CONFIG_BIAS_PULL_UP
    else if flags &&& GPIO_PUD_MASK = GPIO_PUD_PULL_DOWN then STM32F4X_PIN_CONFIG_BIAS_PULL_DOWN
    else STM32F4X_PIN_CONFIG_BIAS_HIGH_IMPEDANCE

/-- Selector register number `k` (0-3) of the SYSCFG block. -/
def exticrGet (sc : Stm32f4xSyscfg) (k : Nat) : Nat :=
  if k = 0 then sc.exticr1
  else if k = 1 then sc.exticr2
  else if k = 2 then sc.exticr3
  else sc.exticr4

/-- Replace selector register number `k` (0-3) of the SYSCFG block. -/
def exticrSet (sc : Stm32f4xSyscfg) (k : Nat) (v : Nat) : Stm32f4xSyscfg :=
  if k = 0 then { sc with exticr1 := v }
  else if k = 1 then { sc with exticr2 := v }
  else if k = 2 then { sc with exticr3 := v }
  else { sc with exticr4 := v }

/-! ### Bit-level helper lemmas about the read-modify-write pattern -/

theorem testBit_UINT32_MASK (i : Nat) : UINT32_MASK.testBit i = decide (i < 32) := by
  have h : UINT32_MASK = 2 ^ 32 - 1 := by norm_num [UINT32_MASK]
  rw [h, Nat.testBit_two_pow_sub_one]

theorem rmw32_testBit (x w p v i : Nat) :
    (rmw32 x w p v).testBit i =
      (((x.testBit i && (decide (i < 32) ^^ (decide (p ≤ i) && decide (i - p < w)))) ||
        (decide (p ≤ i) && v.testBit (i - p))) && decide (i < 32)) := by
  simp only [rmw32, Nat.testBit_and, Nat.testBit_or, Nat.testBit_xor,
    Nat.testBit_shiftLeft, testBit_UINT32_MASK, Nat.testBit_two_pow_sub_one]

theorem rmw32_testBit_ge32 (x w p v i : Nat) (h : 32 ≤ i) :
    (rmw32 x w p v).testBit i = false := by
  rw [rmw32_testBit]
  have h1 : ¬ i < 32 := by omega
  simp [h1]

theorem rmw32_testBit_outside (x w p v i : Nat) (hi32 : i < 32) (hv : v < 2 ^ w)
    (hout : i < p ∨ p + w ≤ i) : (rmw32 x w p v).testBit i = x.testBit i := by
  rw [rmw32_testBit]
  rcases hout with h | h
  · have h1 : ¬ p ≤ i := by omega
    simp [hi32, h1]
  · have h1 : p ≤ i := by omega
    have h2 : ¬ i - p < w := by omega
    have h3 : v.testBit (i - p) = false :=
      Nat.testBit_lt_two_pow (lt_of_lt_of_le hv (Nat.pow_le_pow_right (by norm_num) (by omega)))
    simp [hi32, h1, h2, h3]

theorem rmw32_testBit_inside (x w p v j : Nat) (hj : j < w) (hpw : p + w ≤ 32) :
    (rmw32 x w p v).testBit (p + j) = v.testBit j := by
  rw [rmw32_testBit]
  have h1 : p ≤ p + j := by omega
  have h2 : p + j - p = j := by omega
  have h3 : p + j < 32 := by omega
  simp [h1, h2, h3, hj]

theorem rmw32_idem (x w p v : Nat) : rmw32 (rmw32 x w p v) w p v = rmw32 x w p v := by
  apply Nat.eq_of_testBit_eq
  intro i
  rw [rmw32_testBit, rmw32_testBit]
  generalize x.testBit i = a
  generalize v.testBit (i - p) = b
  generalize decide (i < 32) = c
  generalize decide (p ≤ i) = d
  generalize decide (i - p < w) = e
  cases a <;> cases b <;> cases c <;> cases d <;> cases e <;> rfl

theorem rmw32_w4 (x p v : Nat) :
    ((x &&& (UINT32_MASK ^^^ (0xf <<< p))) ||| (v <<< p)) &&& UINT32_MASK =
      rmw32 x 4 p v := by
  norm_num [rmw32]

theorem rmw32_w2 (x p v : Nat) :
    ((x &&& (UINT32_MASK ^^^ (0x3 <<< p))) ||| (v <<< p)) &&& UINT32_MASK =
      rmw32 x 2 p v := by
  norm_num [rmw32]

theorem rmw32_w1 (x p v : Nat) :
    ((x &&& (UINT32_MASK ^^^ (0x1 <<< p))) ||| (v <<< p)) &&& UINT32_MASK =
      rmw32 x 1 p v := by
  norm_num [rmw32]

theorem __func_to_mode_lt (c : Int) : __func_to_mode c < 4 := by
  unfold __func_to_mode
  split_ifs <;> norm_num

theorem __func_to_otype_lt (c : Int) : __func_to_otype c < 2 := by
  unfold __func_to_otype
  split_ifs <;> norm_num

theorem __func_to_ospeed_lt (c : Int) : __func_to_ospeed c < 4 := by
  unfold __func_to_ospeed
  split_ifs <;> norm_num

theorem __func_to_pupd_lt (c : Int) : __func_to_pupd c < 4 := by
  unfold __func_to_pupd
  split_ifs <;> norm_num

/-! ### Functional characterizations of the two multi-register operations -/

theorem stm32_gpio_configure_eq (gpio : Stm32f4xGpio) (pin : Nat) (conf : Int) (altf : Nat) :
    stm32_gpio_configure gpio pin conf altf =
      (0,
       { gpio with
          mode := rmw32 gpio.mode 2 (pin * 2) (__func_to_mode conf)
          otype := if __func_to_otype conf ≠ 0 then
              rmw32 gpio.otype 1 pin (__func_to_otype conf) else gpio.otype
          ospeed := if __func_to_ospeed conf ≠ 0 then
              rmw32 gpio.ospeed 2 (pin * 2) (__func_to_ospeed conf) else gpio.ospeed
          pupdr := rmw32 gpio.pupdr 2 (pin * 2) (__func_to_pupd conf)
          afr0 := if altf ≠ 0 ∧ pin / 8 = 0 then
              rmw32 gpio.afr0 4 ((pin % 8) * 4) altf else gpio.afr0
          afr1 := if altf ≠ 0 ∧ ¬ pin / 8 = 0 then
              rmw32 gpio.afr1 4 ((pin % 8) * 4) altf else gpio.afr1 },
       (if altf ≠ 0 then
          [RegWrite.afr (pin / 8)
            (rmw32 (if pin / 8 = 0 then gpio.afr0 else gpio.afr1) 4 ((pin % 8) * 4) altf)]
        else []) ++
       [RegWrite.mode (rmw32 gpio.mode 2 (pin * 2) (__func_to_mode conf))] ++
       (if __func_to_otype conf ≠ 0 then
          [RegWrite.otype (rmw32 gpio.otype 1 pin (__func_to_otype conf))] else []) ++
       (if __func_to_ospeed conf ≠ 0 then
          [RegWrite.ospeed (rmw32 gpio.ospeed 2 (pin * 2) (__func_to_ospeed conf))] else []) ++
       [RegWrite.pupdr (rmw32 gpio.pupdr 2 (pin * 2) (__func_to_pupd conf))]) := by
  have h8 : pin >>> 0x3 = pin / 8 := by
    rw [Nat.shiftRight_eq_div_pow]
  have h7 : pin &&& 0x07 = pin % 8 := by
    have h := Nat.and_pow_two_sub_one_eq_mod pin 3
    norm_num at h
    exact h
  simp only [stm32_gpio_configure, h8, h7, rmw32_w4, rmw32_w2, rmw32_w1]
  by_cases ha : altf = 0 <;> by_cases hot : __func_to_otype conf = 0 <;>
    by_cases hos : __func_to_ospeed conf = 0 <;> by_cases hp : pin / 8 = 0 <;>
      simp [ha, hot, hos, hp]

theorem stm32_gpio_enable_int_eq (s : EnableIntState) (port : Nat) (pin : Nat)
    (hpin : pin ≤ 15) :
    stm32_gpio_enable_int s port pin =
      (0, { syscfg := exticrSet s.syscfg (pin / 4)
              (rmw32 (exticrGet s.syscfg (pin / 4)) 4 (4 * (pin % 4)) port)
            clock_on_count := s.clock_on_count + 1 }) := by
  rcases Nat.lt_or_ge pin 4 with h | h
  · have hd : pin / 4 = 0 := by omega
    have hc : pin ≤ 3 := by omega
    simp [stm32_gpio_enable_int, exticrSet, exticrGet, hd, hc, rmw32_w4]
  rcases Nat.lt_or_ge pin 8 with h2 | h2
  · have hd : pin / 4 = 1 := by omega
    have hc1 : ¬ pin ≤ 3 := by omega
    have hc2 : pin ≤ 7 := by omega
    simp [stm32_gpio_enable_int, exticrSet, exticrGet, hd, hc1, hc2, rmw32_w4]
  rcases Nat.lt_or_ge pin 12 with h3 | h3
  · have hd : pin / 4 = 2 := by omega
    have hc1 : ¬ pin ≤ 3 := by omega
    have hc2 : ¬ pin ≤ 7 := by omega
    have hc3 : pin ≤ 11 := by omega
    simp [stm32_gpio_enable_int, exticrSet, exticrGet, hd, hc1, hc2, hc3, rmw32_w4]
  · have hd : pin / 4 = 3 := by omega
    have hc1 : ¬ pin ≤ 3 := by omega
    have hc2 : ¬ pin ≤ 7 := by omega
    have hc3 : ¬ pin ≤ 11 := by omega
    simp [stm32_gpio_enable_int, exticrSet, exticrGet, hd, hc1, hc2, hc3, hpin, rmw32_w4]

theorem stm32_gpio_enable_int_oob (s : EnableIntState) (port : Nat) (pin : Nat)
    (hpin : 15 < pin) :
    stm32_gpio_enable_int s port pin =
      (-EINVAL, { s with clock_on_count := s.clock_on_count + 1 }) := by
  have hc1 : ¬ pin ≤ 3 := by omega
  have hc2 : ¬ pin ≤ 7 := by omega
  have hc3 : ¬ pin ≤ 11 := by omega
  have hc4 : ¬ pin ≤ 15 := by omega
  simp [stm32_gpio_enable_int, hc1, hc2, hc3, hc4]

theorem exticrGet_exticrSet_self (sc : Stm32f4xSyscfg) (k v : Nat) :
    exticrGet (exticrSet sc k v) k = v := by
  unfold exticrGet exticrSet
  split_ifs <;> rfl

theorem exticrGet_exticrSet_ne (sc : Stm32f4xSyscfg) (k j v : Nat)
    (hk : k ≤ 3) (hj : j ≤ 3) (hne : k ≠ j) :
    exticrGet (exticrSet sc j v) k = exticrGet sc k := by
  interval_cases k <;> interval_cases j <;> simp_all [exticrGet, exticrSet]

theorem one_shiftLeft_mask32 (k : Nat) (hk : k ≤ 31) :
    (1 <<< k) &&& UINT32_MASK = 2 ^ k := by
  have h1 : (1 : Nat) <<< k = 2 ^ k := Nat.one_shiftLeft k
  have h2 : (2 : Nat) ^ k < 2 ^ 32 := Nat.pow_lt_pow_right (by norm_num) (by omega)
  have hM : UINT32_MASK = 2 ^ 32 - 1 := by norm_num [UINT32_MASK]
  rw [h1, hM, Nat.and_pow_two_sub_one_of_lt_two_pow h2]

/-! ### Claim C1 -/

/-- Claim C1, counterexample: at port 0 and pin 16 (greater than 15),
`stm32_gpio_enable_int` does return the invalid-argument error, but the SYSCFG
clock enable IS invoked on this failure path (the clock-on counter moves from 0
to 1), contradicting the claim that the clock enable is not invoked. -/
theorem enable_int_pin16_invokes_clock_enable :
    (stm32_gpio_enable_int ⟨⟨0, 0, 0, 0⟩, 0⟩ 0 16).1 = -EINVAL ∧
    (stm32_gpio_enable_int ⟨⟨0, 0, 0, 0⟩, 0⟩ 0 16).2.clock_on_count ≠ 0 := by
  decide

/-- Claim C1 (amended): for every port identifier and every pin index greater
than 15, `stm32_gpio_enable_int` returns the invalid-argument error and no
selector register field is modified; however the SYSCFG clock enable is invoked
exactly once before the bounds check, so the clock enable is the one side
effect on this failure path. -/
theorem enable_int_oob_einval_after_clock (s : EnableIntState) (port pin : Nat)
    (hpin : 15 < pin) :
    stm32_gpio_enable_int s port pin =
      (-EINVAL, { s with clock_on_count := s.clock_on_count + 1 }) :=
  stm32_gpio_enable_int_oob s port pin hpin

/-- Claim C1 witness: the amended theorem applied at port 9, pin 16. -/
theorem enable_int_oob_einval_after_clock_witness :
    15 < 16 ∧
    stm32_gpio_enable_int ⟨⟨1, 2, 3, 4⟩, 7⟩ 9 16 = (-EINVAL, ⟨⟨1, 2, 3, 4⟩, 8⟩) :=
  ⟨by decide, enable_int_oob_einval_after_clock ⟨⟨1, 2, 3, 4⟩, 7⟩ 9 16 (by decide)⟩

/-! ### Claim C2 -/

/-- Claim C2, counterexample: starting from a register block whose speed field
for pin 5 holds 01 (bit 10 set), configuring pin 5 as drive-push-pull with no
alternate function rewrites the speed bits [11:10] to 10 (value 0x800): the
bits are neither left unset nor left at their prior value, because
ospeed-of(drive-push-pull) is the non-zero value 0x2 and is therefore written. -/
theorem configure_pin5_push_pull_writes_ospeed :
    (stm32_gpio_configure ⟨0, 0, 0x400, 0, 0, 0, 0, 0⟩ 5
        STM32F4X_PIN_CONFIG_DRIVE_PUSH_PULL 0).2.1.ospeed = 0x800 ∧
    (0x800 : Nat).testBit 11 = true ∧ (0x800 : Nat).testBit 10 = false ∧
    (0x400 : Nat).testBit 10 = true := by
  decide

/-- Claim C2 (amended): calling `stm32_gpio_configure` with pin 5, the
drive-push-pull function value and alternate-function code 0 returns success,
sets mode register bits [11:10] to 01, leaves the output-type register
unwritten (so bit 5 keeps its prior value, in particular 0 if it was 0), sets
speed bits [11:10] to 10 (the fast-speed value 0x2 is written because
ospeed-of(drive-push-pull) is non-zero), and sets pull register bits [11:10]
to 00. -/
theorem configure_pin5_push_pull_fields (g : Stm32f4xGpio) :
    (stm32_gpio_configure g 5 STM32F4X_PIN_CONFIG_DRIVE_PUSH_PULL 0).1 = 0 ∧
    (stm32_gpio_configure g 5 STM32F4X_PIN_CONFIG_DRIVE_PUSH_PULL 0).2.1.mode.testBit 10 = true ∧
    (stm32_gpio_configure g 5 STM32F4X_PIN_CONFIG_DRIVE_PUSH_PULL 0).2.1.mode.testBit 11 = false ∧
    (stm32_gpio_configure g 5 STM32F4X_PIN_CONFIG_DRIVE_PUSH_PULL 0).2.1.otype = g.otype ∧
    (stm32_gpio_configure g 5 STM32F4X_PIN_CONFIG_DRIVE_PUSH_PULL 0).2.1.ospeed.testBit 10 = false ∧
    (stm32_gpio_configure g 5 STM32F4X_PIN_CONFIG_DRIVE_PUSH_PULL 0).2.1.ospeed.testBit 11 = true ∧
    (stm32_gpio_configure g 5 STM32F4X_PIN_CONFIG_DRIVE_PUSH_PULL 0).2.1.pupdr.testBit 10 = false ∧
    (stm32_gpio_configure g 5 STM32F4X_PIN_CONFIG_DRIVE_PUSH_PULL 0).2.1.pupdr.testBit 11 = false := by
  have hm : __func_to_mode STM32F4X_PIN_CONFIG_DRIVE_PUSH_PULL = 1 := by decide
  have hot : __func_to_otype STM32F4X_PIN_CONFIG_DRIVE_PUSH_PULL = 0 := by decide
  have hos : __func_to_ospeed STM32F4X_PIN_CONFIG_DRIVE_PUSH_PULL = 2 := by decide
  have hpu : __func_to_pupd STM32F4X_PIN_CONFIG_DRIVE_PUSH_PULL = 0 := by decide
  have b0 : ∀ x : Nat, (rmw32 x 2 10 1).testBit 10 = true := fun x => by
    have h := rmw32_testBit_inside x 2 10 1 0 (by norm_num) (by norm_num)
    simpa using h
  have b1 : ∀ x : Nat, (rmw32 x 2 10 1).testBit 11 = false := fun x => by
    have h := rmw32_testBit_inside x 2 10 1 1 (by norm_num) (by norm_num)
    simpa using h
  have b2 : ∀ x : Nat, (rmw32 x 2 10 2).testBit 10 = false := fun x => by
    have h := rmw32_testBit_inside x 2 10 2 0 (by norm_num) (by norm_num)
    simpa using h
  have b3 : ∀ x : Nat, (rmw32 x 2 10 2).testBit 11 = true := fun x => by
    have h := rmw32_testBit_inside x 2 10 2 1 (by norm_num) (by norm_num)
    simpa using h
  have b4 : ∀ x : Nat, (rmw32 x 2 10 0).testBit 10 = false := fun x => by
    have h := rmw32_testBit_inside x 2 10 0 0 (by norm_num) (by norm_num)
    simpa using h
  have b5 : ∀ x : Nat, (rmw32 x 2 10 0).testBit 11 = false := fun x => by
    have h := rmw32_testBit_inside x 2 10 0 1 (by norm_num) (by norm_num)
    simpa using h
  simp [stm32_gpio_configure_eq, hm, hot, hos, hpu, b0, b1, b2, b3, b4, b5]

/-! ### Claim C3 -/

/-- Claim C3: the four classifier functions are total and match the §4.1 table
on every defined Pin Function variant, and on any integer outside the defined
variants each of the four returns 0. -/
theorem classifiers_match_table :
    (∀ v : PinConfig,
      __func_to_mode v.code = modeSpecTable v ∧
      __func_to_otype v.code = otypeSpecTable v ∧
      __func_to_ospeed v.code = ospeedSpecTable v ∧
      __func_to_pupd v.code = pupdSpecTable v) ∧
    (∀ n : Int, (∀ v : PinConfig, PinConfig.code v ≠ n) →
      __func_to_mode n = 0 ∧ __func_to_otype n = 0 ∧
      __func_to_ospeed n = 0 ∧ __func_to_pupd n = 0) := by
  constructor
  · intro v
    cases v <;> exact ⟨by decide, by decide, by decide, by decide⟩
  · intro n h
    have e0 : ¬ n = STM32F4X_PIN_CONFIG_BIAS_HIGH_IMPEDANCE := fun e => h .bias_high_impedance e.symm
    have e1 : ¬ n = STM32F4X_PIN_CONFIG_BIAS_PULL_UP := fun e => h .bias_pull_up e.symm
    have e2 : ¬ n = STM32F4X_PIN_CONFIG_BIAS_PULL_DOWN := fun e => h .bias_pull_down e.symm
    have e3 : ¬ n = STM32F4X_PIN_CONFIG_DRIVE_PUSH_PULL := fun e => h .drive_push_pull e.symm
    have e4 : ¬ n = STM32F4X_PIN_CONFIG_DRIVE_PUSH_UP := fun e => h .drive_push_up e.symm
    have e5 : ¬ n = STM32F4X_PIN_CONFIG_DRIVE_PUSH_DOWN := fun e => h .drive_push_down e.symm
    have e6 : ¬ n = STM32F4X_PIN_CONFIG_DRIVE_OPEN_DRAIN := fun e => h .drive_open_drain e.symm
    have e7 : ¬ n = STM32F4X_PIN_CONFIG_DRIVE_OPEN_UP := fun e => h .drive_open_up e.symm
    have e8 : ¬ n = STM32F4X_PIN_CONFIG_DRIVE_OPEN_DOWN := fun e => h .drive_open_down e.symm
    have e9 : ¬ n = STM32F4X_PIN_CONFIG_AF_PUSH_PULL := fun e => h .af_push_pull e.symm
    have e10 : ¬ n = STM32F4X_PIN_CONFIG_AF_PUSH_UP := fun e => h .af_push_up e.symm
    have e11 : ¬ n = STM32F4X_PIN_CONFIG_AF_PUSH_DOWN := fun e => h .af_push_down e.symm
    have e12 : ¬ n = STM32F4X_PIN_CONFIG_AF_OPEN_DRAIN := fun e => h .af_open_drain e.symm
    have e13 : ¬ n = STM32F4X_PIN_CONFIG_AF_OPEN_UP := fun e => h .af_open_up e.symm
    have e14 : ¬ n = STM32F4X_PIN_CONFIG_AF_OPEN_DOWN := fun e => h .af_open_down e.symm
    have e15 : ¬ n = STM32F4X_PIN_CONFIG_ANALOG := fun e => h .analog e.symm
    refine ⟨?_, ?_, ?_, ?_⟩ <;>
      simp [__func_to_mode, __func_to_otype, __func_to_ospeed, __func_to_pupd,
        e0, e1, e2, e3, e4, e5, e6, e7, e8, e9, e10, e11, e12, e13, e14, e15]

/-- Claim C3 witness: the out-of-enumeration default applied at the integer 99,
which is no defined variant's code. -/
theorem classifiers_match_table_witness :
    (∀ v : PinConfig, PinConfig.code v ≠ 99) ∧
    (__func_to_mode 99 = 0 ∧ __func_to_otype 99 = 0 ∧
     __func_to_ospeed 99 = 0 ∧ __func_to_pupd 99 = 0) :=
  ⟨fun v => by cases v <;> decide,
   classifiers_match_table.2 99 (fun v => by cases v <;> decide)⟩

/-! ### Claim C4 -/

/-- Claim C4: for every pin 0-15, function value and alternate-function code
(a 4-bit value), `stm32_gpio_configure` returns success and performs, in this
order: a read-modify-write of the 4-bit nibble at offset (pin mod 8)·4 of
alternate-function word pin/8 to altf when altf is non-zero; a read-modify-write
of the 2-bit mode field at bit pin·2 to mode-of(f); a write of the output-type
bit at pin only when otype-of(f) is non-zero and of the 2-bit speed field at
pin·2 only when ospeed-of(f) is non-zero (zero values are never written back
for these two fields); and an unconditional read-modify-write of the 2-bit pull
field at pin·2 to pupd-of(f). -/
theorem configure_ordered_sequence (gpio : Stm32f4xGpio) (pin : Nat) (conf : Int)
    (altf : Nat) (_hpin : pin ≤ 15) (_haltf : altf ≤ 15) :
    stm32_gpio_configure gpio pin conf altf =
      (0,
       { gpio with
          mode := rmw32 gpio.mode 2 (pin * 2) (__func_to_mode conf)
          otype := if __func_to_otype conf ≠ 0 then
              rmw32 gpio.otype 1 pin (__func_to_otype conf) else gpio.otype
          ospeed := if __func_to_ospeed conf ≠ 0 then
              rmw32 gpio.ospeed 2 (pin * 2) (__func_to_ospeed conf) else gpio.ospeed
          pupdr := rmw32 gpio.pupdr 2 (pin * 2) (__func_to_pupd conf)
          afr0 := if altf ≠ 0 ∧ pin / 8 = 0 then
              rmw32 gpio.afr0 4 ((pin % 8) * 4) altf else gpio.afr0
          afr1 := if altf ≠ 0 ∧ ¬ pin / 8 = 0 then
              rmw32 gpio.afr1 4 ((pin % 8) * 4) altf else gpio.afr1 },
       (if altf ≠ 0 then
          [RegWrite.afr (pin / 8)
            (rmw32 (if pin / 8 = 0 then gpio.afr0 else gpio.afr1) 4 ((pin % 8) * 4) altf)]
        else []) ++
       [RegWrite.mode (rmw32 gpio.mode 2 (pin * 2) (__func_to_mode conf))] ++
       (if __func_to_otype conf ≠ 0 then
          [RegWrite.otype (rmw32 gpio.otype 1 pin (__func_to_otype conf))] else []) ++
       (if __func_to_ospeed conf ≠ 0 then
          [RegWrite.ospeed (rmw32 gpio.ospeed 2 (pin * 2) (__func_to_ospeed conf))] else []) ++
       [RegWrite.pupdr (rmw32 gpio.pupdr 2 (pin * 2) (__func_to_pupd conf))]) :=
  stm32_gpio_configure_eq gpio pin conf altf

/-- Claim C4 witness: the sequence theorem applied at pin 9, alternate-function
code 0x7 and the alternate-function push-pull function value, from the all-zero
register block (alternate-function word 1, nibble offset 4, per §8). -/
theorem configure_ordered_sequence_witness :
    (9 : Nat) ≤ 15 ∧ (7 : Nat) ≤ 15 ∧
    stm32_gpio_configure ⟨0, 0, 0, 0, 0, 0, 0, 0⟩ 9 STM32F4X_PIN_CONFIG_AF_PUSH_PULL 7 =
      (0, ⟨0x80000, 0, 0x80000, 0, 0, 0x70, 0, 0⟩,
       [RegWrite.afr 1 0x70, RegWrite.mode 0x80000, RegWrite.ospeed 0x80000,
        RegWrite.pupdr 0]) :=
  ⟨by decide, by decide,
   configure_ordered_sequence ⟨0, 0, 0, 0, 0, 0, 0, 0⟩ 9
     STM32F4X_PIN_CONFIG_AF_PUSH_PULL 7 (by decide) (by decide)⟩

/-! ### Claim C5 -/

/-- Claim C5: for every pin 0-15, function value and 4-bit alternate-function
code, `stm32_gpio_configure` leaves every register bit outside the configured
pin's own fields unchanged: mode/speed/pull bits other than the pair at pin·2,
output-type bits other than bit pin, alternate-function bits outside the pin's
nibble of its own word, the entire other alternate-function word, and (when the
alternate-function code is 0) both alternate-function words, which are then not
written at all; the set/reset and input-data registers are never touched. -/
theorem configure_frame (gpio : Stm32f4xGpio) (pin : Nat) (conf : Int) (altf : Nat)
    (hpin : pin ≤ 15) (haltf : altf ≤ 15) :
    (∀ i, i < 32 → i ≠ pin * 2 → i ≠ pin * 2 + 1 →
      (stm32_gpio_configure gpio pin conf altf).2.1.mode.testBit i = gpio.mode.testBit i) ∧
    (∀ i, i < 32 → i ≠ pin →
      (stm32_gpio_configure gpio pin conf altf).2.1.otype.testBit i = gpio.otype.testBit i) ∧
    (∀ i, i < 32 → i ≠ pin * 2 → i ≠ pin * 2 + 1 →
      (stm32_gpio_configure gpio pin conf altf).2.1.ospeed.testBit i = gpio.ospeed.testBit i) ∧
    (∀ i, i < 32 → i ≠ pin * 2 → i ≠ pin * 2 + 1 →
      (stm32_gpio_configure gpio pin conf altf).2.1.pupdr.testBit i = gpio.pupdr.testBit i) ∧
    (∀ i, i < 32 → ¬ (pin / 8 = 0 ∧ (pin % 8) * 4 ≤ i ∧ i < (pin % 8) * 4 + 4) →
      (stm32_gpio_configure gpio pin conf altf).2.1.afr0.testBit i = gpio.afr0.testBit i) ∧
    (∀ i, i < 32 → ¬ (pin / 8 = 1 ∧ (pin % 8) * 4 ≤ i ∧ i < (pin % 8) * 4 + 4) →
      (stm32_gpio_configure gpio pin conf altf).2.1.afr1.testBit i = gpio.afr1.testBit i) ∧
    (altf = 0 →
      (stm32_gpio_configure gpio pin conf altf).2.1.afr0 = gpio.afr0 ∧
      (stm32_gpio_configure gpio pin conf altf).2.1.afr1 = gpio.afr1) ∧
    (stm32_gpio_configure gpio pin conf altf).2.1.bsr = gpio.bsr ∧
    (stm32_gpio_configure gpio pin conf altf).2.1.idr = gpio.idr := by
  simp only [stm32_gpio_configure_eq]
  have haltf16 : altf < 2 ^ 4 := by omega
  refine ⟨?_, ?_, ?_, ?_, ?_, ?_, ?_, trivial, trivial⟩
  · intro i hi h1 h2
    exact rmw32_testBit_outside _ 2 _ _ i hi (__func_to_mode_lt conf) (by omega)
  · intro i hi h1
    by_cases hot : __func_to_otype conf = 0
    · simp [hot]
    · simp only [hot, if_true, ne_eq, not_false_iff, if_pos]
      exact rmw32_testBit_outside _ 1 _ _ i hi (__func_to_otype_lt conf) (by omega)
  · intro i hi h1 h2
    by_cases hos : __func_to_ospeed conf = 0
    · simp [hos]
    · simp only [hos, ne_eq, not_false_iff, if_pos]
      exact rmw32_testBit_outside _ 2 _ _ i hi (__func_to_ospeed_lt conf) (by omega)
  · intro i hi h1 h2
    exact rmw32_testBit_outside _ 2 _ _ i hi (__func_to_pupd_lt conf) (by omega)
  · intro i hi hout
    by_cases ha : altf = 0
    · simp [ha]
    · by_cases hp : pin / 8 = 0
      · have hrange : i < (pin % 8) * 4 ∨ (pin % 8) * 4 + 4 ≤ i := by
          rcases Nat.lt_or_ge i ((pin % 8) * 4) with h | h
          · exact Or.inl h
          · right
            by_contra hcon
            exact hout ⟨hp, h, by omega⟩
        simp only [ha, hp, ne_eq, not_false_iff, true_and, if_pos, and_self]
        exact rmw32_testBit_outside _ 4 _ _ i hi haltf16 hrange
      · simp [ha, hp]
  · intro i hi hout
    by_cases ha : altf = 0
    · simp [ha]
    · by_cases hp : pin / 8 = 0
      · simp [ha, hp]
      · have hp1 : pin / 8 = 1 := by omega
        have hrange : i < (pin % 8) * 4 ∨ (pin % 8) * 4 + 4 ≤ i := by
          rcases Nat.lt_or_ge i ((pin % 8) * 4) with h | h
          · exact Or.inl h
          · right
            by_contra hcon
            exact hout ⟨hp1, h, by omega⟩
        simp only [ha, hp, ne_eq, not_false_iff, true_and, if_pos, and_self]
        exact rmw32_testBit_outside _ 4 _ _ i hi haltf16 hrange
  · intro ha
    simp [ha]

/-- Claim C5 witness: the frame theorem applied at pin 9, alternate-function
code 7, from a register block with every register holding 0xFFFFFFFF. -/
theorem configure_frame_witness :
    (9 : Nat) ≤ 15 ∧ (7 : Nat) ≤ 15 ∧
    (∀ i, i < 32 → i ≠ 9 * 2 → i ≠ 9 * 2 + 1 →
      (stm32_gpio_configure ⟨0xFFFFFFFF, 0xFFFFFFFF, 0xFFFFFFFF, 0xFFFFFFFF, 0xFFFFFFFF,
          0xFFFFFFFF, 0xFFFFFFFF, 0xFFFFFFFF⟩ 9 STM32F4X_PIN_CONFIG_AF_PUSH_PULL 7).2.1.mode.testBit i =
        (0xFFFFFFFF : Nat).testBit i) := by
  refine ⟨by decide, by decide, ?_⟩
  intro i hi h1 h2
  have h := (configure_frame ⟨0xFFFFFFFF, 0xFFFFFFFF, 0xFFFFFFFF, 0xFFFFFFFF, 0xFFFFFFFF,
      0xFFFFFFFF, 0xFFFFFFFF, 0xFFFFFFFF⟩ 9 STM32F4X_PIN_CONFIG_AF_PUSH_PULL 7
      (by decide) (by decide)).1 i hi h1 h2
  exact h

/-! ### Claim C6 -/

/-- Claim C6: for every flags word, `stm32_gpio_flags_to_conf` with a non-null
destination returns success and stores exactly the Pin Function of the §4.2
table (output direction with pull-up, pull-down or neither yields the
drive-push-pull variant with that pull; any other direction yields the bias
variant; unrecognized direction or pull values fall through to the input/none
branches); with a null destination it returns the invalid-argument error and
stores nothing. -/
theorem flags_to_conf_matches_table (flags : Nat) :
    stm32_gpio_flags_to_conf flags true = (0, some (flagsToConfSpec flags)) ∧
    stm32_gpio_flags_to_conf flags false = (-EINVAL, none) := by
  constructor
  · simp only [stm32_gpio_flags_to_conf, flagsToConfSpec]
    split_ifs <;> simp_all
  · rfl

/-- Claim C6 witness: the translator theorem applied at the flags word with the
output-direction bit and the pull-down field set. -/
theorem flags_to_conf_matches_table_witness :
    stm32_gpio_flags_to_conf 0x21 true = (0, some (flagsToConfSpec 0x21)) ∧
    stm32_gpio_flags_to_conf 0x21 false = (-EINVAL, none) :=
  flags_to_conf_matches_table 0x21

/-! ### Claim C7 -/

/-- Claim C7: for every pin 0-15, `stm32_gpio_set` performs exactly one store
to the atomic set/reset register, whose value has only bit pin set when the
value is non-zero and only bit pin+16 set when the value is zero, and
`stm32_gpio_get` returns bit pin of the input-data register masked to 0 or 1,
including pin 15. -/
theorem set_get_single_write (gpio : Stm32f4xGpio) (pin value : Nat) (hpin : pin ≤ 15) :
    (stm32_gpio_set gpio pin value).1 = 0 ∧
    (stm32_gpio_set gpio pin value).2.2 =
      [RegWrite.bsr (if value ≠ 0 then 2 ^ pin else 2 ^ (pin + 16))] ∧
    (stm32_gpio_set gpio pin value).2.1 =
      { gpio with bsr := if value ≠ 0 then 2 ^ pin else 2 ^ (pin + 16) } ∧
    stm32_gpio_get gpio pin = (if gpio.idr.testBit pin then 1 else 0) := by
  have hmask : pin &&& 0x0f = pin := by
    have h := Nat.and_pow_two_sub_one_eq_mod pin 4
    norm_num at h
    omega
  have hv1 : (1 <<< pin) &&& UINT32_MASK = 2 ^ pin :=
    one_shiftLeft_mask32 pin (by omega)
  have hv2 : (1 <<< (pin + 0x10)) &&& UINT32_MASK = 2 ^ (pin + 16) :=
    one_shiftLeft_mask32 (pin + 16) (by omega)
  have hget : stm32_gpio_get gpio pin = (if gpio.idr.testBit pin then 1 else 0) := by
    have h1 : (gpio.idr >>> pin) &&& 0x1 = gpio.idr / 2 ^ pin % 2 := by
      rw [Nat.and_one_is_mod, Nat.shiftRight_eq_div_pow]
    have h2 : gpio.idr.testBit pin = decide (gpio.idr / 2 ^ pin % 2 = 1) :=
      Nat.testBit_to_div_mod
    rw [stm32_gpio_get, h1, h2]
    rcases Nat.mod_two_eq_zero_or_one (gpio.idr / 2 ^ pin) with h | h <;> simp [h]
  by_cases hval : value = 0 <;>
    simp [stm32_gpio_set, hval, hmask, hv1, hv2, hget]

/-- Claim C7 witness: the theorem applied at pin 15 with a non-zero value and
input-data register 0x8000 (bit 15 set). -/
theorem set_get_single_write_witness :
    (15 : Nat) ≤ 15 ∧
    ((stm32_gpio_set ⟨0, 0, 0, 0, 0, 0, 0, 0x8000⟩ 15 1).1 = 0 ∧
     (stm32_gpio_set ⟨0, 0, 0, 0, 0, 0, 0, 0x8000⟩ 15 1).2.2 =
       [RegWrite.bsr (if (1 : Nat) ≠ 0 then 2 ^ 15 else 2 ^ (15 + 16))] ∧
     (stm32_gpio_set ⟨0, 0, 0, 0, 0, 0, 0, 0x8000⟩ 15 1).2.1 =
       { (⟨0, 0, 0, 0, 0, 0, 0, 0x8000⟩ : Stm32f4xGpio) with
          bsr := if (1 : Nat) ≠ 0 then 2 ^ 15 else 2 ^ (15 + 16) } ∧
     stm32_gpio_get ⟨0, 0, 0, 0, 0, 0, 0, 0x8000⟩ 15 =
       (if (0x8000 : Nat).testBit 15 then 1 else 0)) :=
  ⟨by decide, set_get_single_write ⟨0, 0, 0, 0, 0, 0, 0, 0x8000⟩ 15 1 (by decide)⟩

/-! ### Claim C8 -/

/-- Claim C8: for every port identifier (a 4-bit value) and every pin 0-15,
`stm32_gpio_enable_int` selects selector register pin/4, clears the 4-bit field
at shift (pin mod 4)·4, ORs the port identifier into that field, leaves the
other three fields of that register and the other selector registers unchanged,
and returns success; in particular pin 7 targets selector register 1 with the
port written to bits [15:12]. -/
theorem enable_int_field_select (s : EnableIntState) (port pin : Nat)
    (hpin : pin ≤ 15) (hport : port ≤ 15) :
    (stm32_gpio_enable_int s port pin).1 = 0 ∧
    (stm32_gpio_enable_int s port pin).2.clock_on_count = s.clock_on_count + 1 ∧
    (stm32_gpio_enable_int s port pin).2.syscfg =
      exticrSet s.syscfg (pin / 4)
        (rmw32 (exticrGet s.syscfg (pin / 4)) 4 (4 * (pin % 4)) port) ∧
    (∀ j, j < 4 →
      (exticrGet (stm32_gpio_enable_int s port pin).2.syscfg (pin / 4)).testBit
          (4 * (pin % 4) + j) = port.testBit j) ∧
    (∀ i, i < 32 → ¬ (4 * (pin % 4) ≤ i ∧ i < 4 * (pin % 4) + 4) →
      (exticrGet (stm32_gpio_enable_int s port pin).2.syscfg (pin / 4)).testBit i =
        (exticrGet s.syscfg (pin / 4)).testBit i) ∧
    (∀ k, k ≤ 3 → k ≠ pin / 4 →
      exticrGet (stm32_gpio_enable_int s port pin).2.syscfg k = exticrGet s.syscfg k) := by
  rw [stm32_gpio_enable_int_eq s port pin hpin]
  have hpw : 4 * (pin % 4) + 4 ≤ 32 := by omega
  have hport16 : port < 2 ^ 4 := by omega
  refine ⟨rfl, rfl, rfl, ?_, ?_, ?_⟩
  · intro j hj
    rw [exticrGet_exticrSet_self]
    exact rmw32_testBit_inside _ 4 _ port j hj hpw
  · intro i hi hout
    rw [exticrGet_exticrSet_self]
    exact rmw32_testBit_outside _ 4 _ port i hi hport16 (by omega)
  · intro k hk hne
    exact exticrGet_exticrSet_ne s.syscfg k (pin / 4) _ hk (by omega) hne

/-- Claim C8 witness: the theorem applied at port 5, pin 7, where selector
register 1 is targeted at bits [15:12]. -/
theorem enable_int_field_select_witness :
    (7 : Nat) ≤ 15 ∧ (5 : Nat) ≤ 15 ∧
    ((stm32_gpio_enable_int ⟨⟨0x1111, 0xFFFF, 0x2222, 0x3333⟩, 4⟩ 5 7).1 = 0 ∧
     (stm32_gpio_enable_int ⟨⟨0x1111, 0xFFFF, 0x2222, 0x3333⟩, 4⟩ 5 7).2.clock_on_count = 4 + 1 ∧
     (stm32_gpio_enable_int ⟨⟨0x1111, 0xFFFF, 0x2222, 0x3333⟩, 4⟩ 5 7).2.syscfg =
       exticrSet (⟨0x1111, 0xFFFF, 0x2222, 0x3333⟩ : Stm32f4xSyscfg) (7 / 4)
         (rmw32 (exticrGet (⟨0x1111, 0xFFFF, 0x2222, 0x3333⟩ : Stm32f4xSyscfg) (7 / 4)) 4
           (4 * (7 % 4)) 5) ∧
     (∀ j, j < 4 →
       (exticrGet (stm32_gpio_enable_int ⟨⟨0x1111, 0xFFFF, 0x2222, 0x3333⟩, 4⟩ 5 7).2.syscfg
           (7 / 4)).testBit (4 * (7 % 4) + j) = (5 : Nat).testBit j) ∧
     (∀ i, i < 32 → ¬ (4 * (7 % 4) ≤ i ∧ i < 4 * (7 % 4) + 4) →
       (exticrGet (stm32_gpio_enable_int ⟨⟨0x1111, 0xFFFF, 0x2222, 0x3333⟩, 4⟩ 5 7).2.syscfg
           (7 / 4)).testBit i =
         (exticrGet (⟨0x1111, 0xFFFF, 0x2222, 0x3333⟩ : Stm32f4xSyscfg) (7 / 4)).testBit i) ∧
     (∀ k, k ≤ 3 → k ≠ 7 / 4 →
       exticrGet (stm32_gpio_enable_int ⟨⟨0x1111, 0xFFFF, 0x2222, 0x3333⟩, 4⟩ 5 7).2.syscfg k =
         exticrGet (⟨0x1111, 0xFFFF, 0x2222, 0x3333⟩ : Stm32f4xSyscfg) k)) :=
  ⟨by decide, by decide,
   enable_int_field_select ⟨⟨0x1111, 0xFFFF, 0x2222, 0x3333⟩, 4⟩ 5 7 (by decide) (by decide)⟩

/-! ### Claim C9 -/

/-- Claim C9: `stm32_gpio_configure` is idempotent: for every register-block
state, pin 0-15, function value and alternate-function code, applying the same
configuration twice yields exactly the register state of applying it once. -/
theorem configure_idempotent (gpio : Stm32f4xGpio) (pin : Nat) (conf : Int)
    (altf : Nat) (_hpin : pin ≤ 15) :
    (stm32_gpio_configure (stm32_gpio_configure gpio pin conf altf).2.1 pin conf altf).2.1 =
      (stm32_gpio_configure gpio pin conf altf).2.1 := by
  simp only [stm32_gpio_configure_eq]
  by_cases ha : altf = 0 <;> by_cases hot : __func_to_otype conf = 0 <;>
    by_cases hos : __func_to_ospeed conf = 0 <;> by_cases hp : pin / 8 = 0 <;>
      simp [ha, hot, hos, hp, rmw32_idem]

/-- Claim C9 witness: the idempotence theorem applied at pin 5 with the
drive-push-pull function value from a non-trivial register block. -/
theorem configure_idempotent_witness :
    (5 : Nat) ≤ 15 ∧
    (stm32_gpio_configure
        (stm32_gpio_configure ⟨0xABCD, 0x1234, 0x5678, 0x9ABC, 0xDEF0, 0x1122, 0, 0⟩ 5
          STM32F4X_PIN_CONFIG_DRIVE_PUSH_PULL 0).2.1 5
        STM32F4X_PIN_CONFIG_DRIVE_PUSH_PULL 0).2.1 =
      (stm32_gpio_configure ⟨0xABCD, 0x1234, 0x5678, 0x9ABC, 0xDEF0, 0x1122, 0, 0⟩ 5
        STM32F4X_PIN_CONFIG_DRIVE_PUSH_PULL 0).2.1 :=
  ⟨by decide,
   configure_idempotent ⟨0xABCD, 0x1234, 0x5678, 0x9ABC, 0xDEF0, 0x1122, 0, 0⟩ 5
     STM32F4X_PIN_CONFIG_DRIVE_PUSH_PULL 0 (by decide)⟩

/-! ### Claim C10 -/

/-- Claim C10: `stm32_gpio_set` masks its pin argument to the low four bits
before shifting, so for every pin value, including values above 15, the shift
amount stays within 0-31 and the call stores exactly bit pin mod 16 (assert) or
bit pin mod 16 + 16 (deassert): an out-of-range pin silently aliases onto
pin mod 16. -/
theorem set_masks_pin (gpio : Stm32f4xGpio) (pin value : Nat) :
    (stm32_gpio_set gpio pin value).1 = 0 ∧
    (stm32_gpio_set gpio pin value).2.2 =
      [RegWrite.bsr (if value ≠ 0 then 2 ^ (pin % 16) else 2 ^ (pin % 16 + 16))] ∧
    (stm32_gpio_set gpio pin value).2.1 =
      { gpio with bsr := if value ≠ 0 then 2 ^ (pin % 16) else 2 ^ (pin % 16 + 16) } ∧
    (if value ≠ 0 then pin % 16 else pin % 16 + 16) ≤ 31 := by
  have hmask : pin &&& 0x0f = pin % 16 := by
    have h := Nat.and_pow_two_sub_one_eq_mod pin 4
    norm_num at h
    exact h
  have hb : pin % 16 ≤ 15 := by omega
  have hv1 : (1 <<< (pin % 16)) &&& UINT32_MASK = 2 ^ (pin % 16) :=
    one_shiftLeft_mask32 (pin % 16) (by omega)
  have hv2 : (1 <<< (pin % 16 + 0x10)) &&& UINT32_MASK = 2 ^ (pin % 16 + 16) :=
    one_shiftLeft_mask32 (pin % 16 + 16) (by omega)
  by_cases hval : value = 0 <;>
    simp [stm32_gpio_set, hval, hmask, hv1, hv2] <;> omega

/-- Claim C10 witness: the masking theorem applied at the out-of-range pin 19,
which aliases onto pin 3. -/
theorem set_masks_pin_witness :
    (stm32_gpio_set ⟨0, 0, 0, 0, 0, 0, 0, 0⟩ 19 1).1 = 0 ∧
    (stm32_gpio_set ⟨0, 0, 0, 0, 0, 0, 0, 0⟩ 19 1).2.2 =
      [RegWrite.bsr (if (1 : Nat) ≠ 0 then 2 ^ (19 % 16) else 2 ^ (19 % 16 + 16))] ∧
    (stm32_gpio_set ⟨0, 0, 0, 0, 0, 0, 0, 0⟩ 19 1).2.1 =
      { (⟨0, 0, 0, 0, 0, 0, 0, 0⟩ : Stm32f4xGpio) with
         bsr := if (1 : Nat) ≠ 0 then 2 ^ (19 % 16) else 2 ^ (19 % 16 + 16) } ∧
    (if (1 : Nat) ≠ 0 then 19 % 16 else 19 % 16 + 16) ≤ 31 :=
  set_masks_pin ⟨0, 0, 0, 0, 0, 0, 0, 0⟩ 19 1

end SocGpio
